import Mathlib

/-!
# Verification of the PIR motion-detector program (`main.py`, `check.py`, `config.py`)

A shallow embedding of the motion-to-action state machine of `main.py` and of the
read-only reporting helpers of `check.py`, followed by theorems settling the spec
claims about them.

The concurrent Python program is embedded as a state machine over `SysState`
processing a serialized stream of events:

* `Event.motionOn t`   — the PIR `when_motion` callback `motion_led_on`, fired at time `t`
  (`time.time()` timestamps are modelled as naturals; real timestamps are positive);
* `Event.motionOff`    — the PIR `when_no_motion` callback `motion_led_off`;
* `Event.poll t env f` — one iteration of the `handle_motion` polling loop at time `t`,
  where `env` records whether the camera capture and the email send would succeed and
  `f` is the timestamped filename `timestamped_filename` would produce;
* `Event.cooldownExpire` — the end of the `cooldown_timer` thread
  (`cooldown_active = False` after the 30 s sleep);
* `Event.blinkTick`    — one iteration of the `_blink_yellow` daemon-thread loop
  (toggle while the flag is set; the `leds["yellow"].off()` after the loop otherwise).

Ghost fields (`triggers`, `cooldown_timers`, `green_flashes`) count observable
side effects: pipeline runs begun, cooldown timers started (with their durations),
and `flash_green` invocations.  The persisted capture log `LOG_FILE` is modelled
as the list of its lines (`photo_log`).
-/

/-- Constant from config.py: `MOTION_THRESHOLD_SECONDS = 5`. -/
def MOTION_THRESHOLD_SECONDS : Nat := 5

/-- Constant from config.py: `COOLDOWN_DURATION_SECONDS = 30`. -/
def COOLDOWN_DURATION_SECONDS : Nat := 30

/-- Whether the two fallible pipeline steps would succeed on this run:
`captureOk` — `picam2.capture_array`/`cv2` capture succeeds in `take_photo`;
`notifyOk` — `send_email` succeeds (SMTP transport and auth). -/
structure PipelineEnv where
  captureOk : Bool
  notifyOk : Bool
deriving DecidableEq, Repr

/-- The mutable global state of `main.py`: the module-level flags and timestamps,
the physical LED channels, the persisted capture log, and ghost counters for
emitted side effects. -/
structure SysState where
  /-- global `yellow_blinking` flag read by the `_blink_yellow` thread -/
  yellow_blinking : Bool
  /-- global `yellow_flash` flag read by the `_flash_yellow` thread -/
  yellow_flash : Bool
  /-- global `cooldown_active` flag -/
  cooldown_active : Bool
  /-- global `motion_start_time` (`None` or a `time.time()` timestamp) -/
  motion_start_time : Option Nat
  /-- physical RED LED channel -/
  red_on : Bool
  /-- physical YELLOW LED channel -/
  yellow_on : Bool
  /-- ghost: number of `flash_green()` invocations (success-indicator patterns fired) -/
  green_flashes : Nat
  /-- lines of the persisted capture log `LOG_FILE` (appended by `log_photo_path`) -/
  photo_log : List String
  /-- ghost: number of pipeline runs begun (capture-triggers emitted) -/
  triggers : Nat
  /-- ghost: durations of the `cooldown_timer` threads started, in order -/
  cooldown_timers : List Nat
deriving DecidableEq, Repr

/-- The state at program start: all flags clear, no session, empty log. -/
def initState : SysState :=
  { yellow_blinking := false
    yellow_flash := false
    cooldown_active := false
    motion_start_time := none
    red_on := false
    yellow_on := false
    green_flashes := 0
    photo_log := []
    triggers := 0
    cooldown_timers := [] }

/-- Source `start_red`: `leds["red"].on()`. -/
def start_red (st : SysState) : SysState := { st with red_on := true }

/-- Source `stop_red`: `leds["red"].off()`. -/
def stop_red (st : SysState) : SysState := { st with red_on := false }

/-- Source `start_yellow_blink`: sets the `yellow_blinking` flag and spawns the
`_blink_yellow` daemon thread (its loop iterations are `blink_tick`). -/
def start_yellow_blink (st : SysState) : SysState := { st with yellow_blinking := true }

/-- Source `stop_yellow_blink`: clears the `yellow_blinking` flag only; the LED itself is
turned off by the blinking thread when its loop exits (see `blink_tick`). -/
def stop_yellow_blink (st : SysState) : SysState := { st with yellow_blinking := false }

/-- One iteration of the `_blink_yellow` thread loop: while `yellow_blinking` is set
the YELLOW LED is toggled; once the flag is cleared the loop exits and runs
`leds["yellow"].off()`. -/
def blink_tick (st : SysState) : SysState :=
  if st.yellow_blinking then { st with yellow_on := !st.yellow_on }
  else { st with yellow_on := false }

/-- Source `start_flash_yellow`: sets the `yellow_flash` flag and spawns `_flash_yellow`. -/
def start_flash_yellow (st : SysState) : SysState := { st with yellow_flash := true }

/-- Source `stop_flash_yellow`: clears the `yellow_flash` flag and runs
`leds["yellow"].off()` directly. -/
def stop_flash_yellow (st : SysState) : SysState :=
  { st with yellow_flash := false, yellow_on := false }

/-- Source `flash_green`: spawns the `_flash_green` thread, firing the fixed-count
success-indicator pattern once; recorded in the ghost counter. -/
def flash_green (st : SysState) : SysState :=
  { st with green_flashes := st.green_flashes + 1 }

/-- Source `motion_led_on` (the `pir.when_motion` callback), at time `t`:
`start_red()`, record `motion_start_time = time.time()`, and start the yellow
blink only when no cooldown is active. -/
def motion_led_on (t : Nat) (st : SysState) : SysState :=
  let st := start_red st
  let st := { st with motion_start_time := some t }
  if st.cooldown_active then st else start_yellow_blink st

/-- Source `motion_led_off` (the `pir.when_no_motion` callback): `stop_red()`,
`stop_yellow_blink()`, clear `motion_start_time`. -/
def motion_led_off (st : SysState) : SysState :=
  let st := stop_red st
  let st := stop_yellow_blink st
  { st with motion_start_time := none }

/-- Source `log_photo_path`: append the photo's base filename as one newline-terminated
line of `LOG_FILE`. -/
def log_photo_path (filename : String) (st : SysState) : SysState :=
  { st with photo_log := st.photo_log ++ [filename] }

/-- Source `save_photo`: write the frame to disk under the timestamped `filename` and
append the filename to the capture log. -/
def save_photo (filename : String) (st : SysState) : SysState :=
  log_photo_path filename st

/-- Source `take_photo`: capture a frame (fails — raises — when the camera errors,
before anything is saved or logged), then `save_photo` it. `none` models the
raised exception. -/
def take_photo (env : PipelineEnv) (filename : String) (st : SysState) :
    Option SysState :=
  if env.captureOk then some (save_photo filename st) else none

/-- Source `send_email photo_file`: succeeds exactly when the transport does (`none`
models the raised exception; the function has no effect on the embedded state). -/
def send_email (env : PipelineEnv) (st : SysState) : Option SysState :=
  if env.notifyOk then some st else none

/-- Source `reset_motion_timer`: set `motion_start_time` back to `None`. -/
def reset_motion_timer (st : SysState) : SysState :=
  { st with motion_start_time := none }

/-- Pipeline outcome taxonomy of the spec: `CaptureFailed` when the capture step
fails, `NotifyFailed` when capture succeeds but the notify step fails, `Success`
when both succeed. -/
inductive Outcome where
  | Success
  | CaptureFailed
  | NotifyFailed
deriving DecidableEq, Repr

/-- The outcome of a pipeline run under environment `env`. -/
def pipelineOutcome (env : PipelineEnv) : Outcome :=
  if !env.captureOk then Outcome.CaptureFailed
  else if !env.notifyOk then Outcome.NotifyFailed
  else Outcome.Success

/-- The `try/except/finally` pipeline body inside `handle_motion` (lines 454-467):
`email_sent = False; try: photo_file = take_photo(); send_email(photo_file);
email_sent = True; except: log error; finally: if email_sent: flash_green();
stop_flash_yellow(); cooldown_active = True; start cooldown_timer thread;
reset_motion_timer()`. -/
def run_pipeline (env : PipelineEnv) (filename : String) (st : SysState) : SysState :=
  let result : Bool × SysState :=
    match take_photo env filename st with
    | none => (false, st)
    | some st' =>
      match send_email env st' with
      | none => (false, st')
      | some st'' => (true, st'')
  let email_sent := result.1
  let st := result.2
  let st := if email_sent then flash_green st else st
  let st := stop_flash_yellow st
  let st := { st with
                cooldown_active := true
                cooldown_timers := st.cooldown_timers ++ [COOLDOWN_DURATION_SECONDS] }
  reset_motion_timer st

/-- Python truthiness of the guard `if motion_start_time and not cooldown_active`:
`None` and the timestamp `0` are falsy (`time.time()` is positive in practice). -/
def motionStartTruthy (st : SysState) : Bool :=
  match st.motion_start_time with
  | none => false
  | some s => s ≠ 0

/-- One iteration of the `handle_motion` polling loop at time `t`: when a truthy
session start exists, no cooldown is active, and the elapsed duration has reached
`MOTION_THRESHOLD_SECONDS`, stop the blink, start the yellow flash, emit the
capture-trigger (ghost counter) and run the pipeline. -/
def handle_motion_step (t : Nat) (env : PipelineEnv) (filename : String)
    (st : SysState) : SysState :=
  if motionStartTruthy st ∧ ¬st.cooldown_active then
    let s := st.motion_start_time.getD 0
    let duration := t - s
    if MOTION_THRESHOLD_SECONDS ≤ duration then
      let st := stop_yellow_blink st
      let st := start_flash_yellow st
      let st := { st with triggers := st.triggers + 1 }
      run_pipeline env filename st
    else st
  else st

/-- The end of a `cooldown_timer` thread: after sleeping
`COOLDOWN_DURATION_SECONDS` it clears `cooldown_active`. -/
def cooldown_expire (st : SysState) : SysState := { st with cooldown_active := false }

/-- The serialized events the embedded system processes. -/
inductive Event where
  | motionOn (t : Nat)
  | motionOff
  | poll (t : Nat) (env : PipelineEnv) (filename : String)
  | cooldownExpire
  | blinkTick
deriving DecidableEq, Repr

/-- Dispatch one event to the handler `main.py` runs for it. -/
def step : Event → SysState → SysState
  | Event.motionOn t, st => motion_led_on t st
  | Event.motionOff, st => motion_led_off st
  | Event.poll t env f, st => handle_motion_step t env f st
  | Event.cooldownExpire, st => cooldown_expire st
  | Event.blinkTick, st => blink_tick st

/-- Run a list of events in order. -/
def run (evs : List Event) (st : SysState) : SysState :=
  evs.foldl (fun s e => step e s) st

/-! ## `check.py`: the read-only reporting surface -/

/-- Constant from check.py: `MAX_RECENT_PHOTOS = 10`. -/
def MAX_RECENT_PHOTOS : Nat := 10

/-- Whitespace characters Python `str.strip()` removes: space, `\t`, `\n`,
`\v`, `\f`, `\r` (code points 32 and 9–13). -/
def pyWhitespaceChar (c : Char) : Bool :=
  c.toNat = 32 || (9 ≤ c.toNat && c.toNat ≤ 13)

/-- Python `str.strip()` on a log line: remove leading and trailing
whitespace. -/
def strip (s : String) : String :=
  ⟨((s.data.dropWhile pyWhitespaceChar).reverse.dropWhile pyWhitespaceChar).reverse⟩

/-- Embedding of `[line.strip() for line in f if line.strip()]`: the stripped, non-blank lines
of the log file. -/
def strippedLines (lines : List String) : List String :=
  (lines.map strip).filter (fun l => l ≠ "")

/-- Source `get_photo_count`: `0` when `LOG_FILE` does not exist (`none`), else the
number of non-blank lines. -/
def get_photo_count (logFile : Option (List String)) : Nat :=
  match logFile with
  | none => 0
  | some lines => (strippedLines lines).length

/-- Embedding of `url_for("static", filename=os.path.relpath(os.path.join(PHOTOS_DIR, f),
STATIC_DIR))` with `PHOTOS_DIR = STATIC_DIR/images`. -/
def photo_url (filename : String) : String := "/static/images/" ++ filename

/-- What the `/check-photos` route renders: one of the two fallback messages, or
the list of photo URLs. -/
inductive CheckPhotosResult where
  | noPhotosFound
  | noPhotosAvailable
  | photoList (photos : List String)
deriving DecidableEq, Repr

/-- The photo URLs a `CheckPhotosResult` displays (`[]` for the message pages). -/
def CheckPhotosResult.displayed : CheckPhotosResult → List String
  | CheckPhotosResult.noPhotosFound => []
  | CheckPhotosResult.noPhotosAvailable => []
  | CheckPhotosResult.photoList ps => ps

/-- Source `check_photos`: render "No photos found." when `LOG_FILE` is missing;
otherwise take the last `MAX_RECENT_PHOTOS` non-blank entries
(`filenames[-MAX_RECENT_PHOTOS:]`), keep those whose file exists in `PHOTOS_DIR`
(`existing`), map them to static URLs, and render "No photos available." when
none remain. -/
def check_photos (logFile : Option (List String)) (existing : String → Bool) :
    CheckPhotosResult :=
  match logFile with
  | none => CheckPhotosResult.noPhotosFound
  | some lines =>
    let filenames := strippedLines lines
    let recent := filenames.drop (filenames.length - MAX_RECENT_PHOTOS)
    let photos := (recent.filter existing).map photo_url
    if photos.isEmpty then CheckPhotosResult.noPhotosAvailable
    else CheckPhotosResult.photoList photos

/-! ## Helper lemmas -/

/-- Events that begin a new motion session. -/
def Event.beginsSession : Event → Bool
  | Event.motionOn _ => true
  | _ => false

/-- Unfolding lemma: `run` on a cons. -/
theorem run_cons (e : Event) (evs : List Event) (st : SysState) :
    run (e :: evs) st = run evs (step e st) := rfl

/-- Unfolding lemma: `run` on nil. -/
theorem run_nil (st : SysState) : run [] st = st := rfl

theorem run_pipeline_triggers (env : PipelineEnv) (f : String) (st : SysState) :
    (run_pipeline env f st).triggers = st.triggers := by
  cases hc : env.captureOk <;> cases hn : env.notifyOk <;>
    simp [run_pipeline, take_photo, send_email, save_photo, log_photo_path,
      flash_green, stop_flash_yellow, reset_motion_timer, hc, hn]

theorem run_pipeline_motion_start (env : PipelineEnv) (f : String) (st : SysState) :
    (run_pipeline env f st).motion_start_time = none := by
  cases hc : env.captureOk <;> cases hn : env.notifyOk <;>
    simp [run_pipeline, take_photo, send_email, save_photo, log_photo_path,
      flash_green, stop_flash_yellow, reset_motion_timer, hc, hn]

theorem run_pipeline_cooldown (env : PipelineEnv) (f : String) (st : SysState) :
    (run_pipeline env f st).cooldown_active = true := by
  cases hc : env.captureOk <;> cases hn : env.notifyOk <;>
    simp [run_pipeline, take_photo, send_email, save_photo, log_photo_path,
      flash_green, stop_flash_yellow, reset_motion_timer, hc, hn]

theorem run_pipeline_timers (env : PipelineEnv) (f : String) (st : SysState) :
    (run_pipeline env f st).cooldown_timers
      = st.cooldown_timers ++ [COOLDOWN_DURATION_SECONDS] := by
  cases hc : env.captureOk <;> cases hn : env.notifyOk <;>
    simp [run_pipeline, take_photo, send_email, save_photo, log_photo_path,
      flash_green, stop_flash_yellow, reset_motion_timer, hc, hn]

theorem run_pipeline_log (env : PipelineEnv) (f : String) (st : SysState) :
    (run_pipeline env f st).photo_log
      = st.photo_log ++ (if env.captureOk then [f] else []) := by
  cases hc : env.captureOk <;> cases hn : env.notifyOk <;>
    simp [run_pipeline, take_photo, send_email, save_photo, log_photo_path,
      flash_green, stop_flash_yellow, reset_motion_timer, hc, hn]

theorem run_pipeline_green (env : PipelineEnv) (f : String) (st : SysState) :
    (run_pipeline env f st).green_flashes
      = st.green_flashes + (if env.captureOk && env.notifyOk then 1 else 0) := by
  cases hc : env.captureOk <;> cases hn : env.notifyOk <;>
    simp [run_pipeline, take_photo, send_email, save_photo, log_photo_path,
      flash_green, stop_flash_yellow, reset_motion_timer, hc, hn]

/-- Unfolding of a `handle_motion` iteration that triggers: truthy session start,
no cooldown, duration at or past the threshold. -/
theorem handle_motion_step_trigger (t t0 : Nat) (env : PipelineEnv) (f : String)
    (st : SysState) (hmt : st.motion_start_time = some t0) (ht0 : t0 ≠ 0)
    (hcd : st.cooldown_active = false)
    (hdur : MOTION_THRESHOLD_SECONDS ≤ t - t0) :
    handle_motion_step t env f st
      = run_pipeline env f
          { st with yellow_blinking := false, yellow_flash := true,
                    triggers := st.triggers + 1 } := by
  simp [handle_motion_step, motionStartTruthy, hmt, ht0, hcd, hdur,
    stop_yellow_blink, start_flash_yellow]

/-- With no session recorded, any event other than a motion-start keeps the
session empty and emits no capture-trigger. -/
theorem noSession_step (e : Event) (st : SysState)
    (hmt : st.motion_start_time = none) (he : e.beginsSession = false) :
    (step e st).motion_start_time = none ∧ (step e st).triggers = st.triggers := by
  cases e with
  | motionOn t => simp [Event.beginsSession] at he
  | motionOff =>
      simp [step, motion_led_off, stop_red, stop_yellow_blink]
  | poll t env f =>
      simp [step, handle_motion_step, motionStartTruthy, hmt]
  | cooldownExpire =>
      simp [step, cooldown_expire, hmt]
  | blinkTick =>
      cases h : st.yellow_blinking <;> simp [step, blink_tick, h, hmt]

/-- With no session recorded, a run of events containing no motion-start keeps
the session empty and emits no capture-trigger. -/
theorem noSession_run (evs : List Event) (st : SysState)
    (hmt : st.motion_start_time = none)
    (he : ∀ e ∈ evs, e.beginsSession = false) :
    (run evs st).motion_start_time = none ∧ (run evs st).triggers = st.triggers := by
  induction evs generalizing st with
  | nil => exact ⟨hmt, rfl⟩
  | cons e evs ih =>
      have hstep := noSession_step e st hmt (he e (by simp))
      have := ih (step e st) hstep.1 (fun e' h' => he e' (by simp [h']))
      rw [run_cons]
      exact ⟨this.1, this.2.trans hstep.2⟩

/-- While the cooldown flag is set, no single event emits a capture-trigger. -/
theorem cooldown_step_triggers (e : Event) (st : SysState)
    (h : st.cooldown_active = true) : (step e st).triggers = st.triggers := by
  cases e with
  | motionOn t => simp [step, motion_led_on, h, start_red]
  | motionOff => simp [step, motion_led_off, stop_red, stop_yellow_blink]
  | poll t env f => simp [step, handle_motion_step, h]
  | cooldownExpire => simp [step, cooldown_expire]
  | blinkTick => cases hb : st.yellow_blinking <;> simp [step, blink_tick, hb]

/-- While the cooldown flag is set, only the cooldown-expiry event clears it. -/
theorem cooldown_step_active (e : Event) (st : SysState)
    (h : st.cooldown_active = true) (he : e ≠ Event.cooldownExpire) :
    (step e st).cooldown_active = true := by
  cases e with
  | motionOn t => simp [step, motion_led_on, h, start_red, start_yellow_blink]
  | motionOff => simp [step, motion_led_off, stop_red, stop_yellow_blink, h]
  | poll t env f => simp [step, handle_motion_step, h]
  | cooldownExpire => exact absurd rfl he
  | blinkTick => cases hb : st.yellow_blinking <;> simp [step, blink_tick, hb, h]

/-- While the cooldown flag is set, a run of events without the cooldown-expiry
event keeps the flag set and emits no capture-trigger. -/
theorem cooldown_run (evs : List Event) (st : SysState)
    (h : st.cooldown_active = true)
    (he : ∀ e ∈ evs, e ≠ Event.cooldownExpire) :
    (run evs st).cooldown_active = true ∧ (run evs st).triggers = st.triggers := by
  induction evs generalizing st with
  | nil => exact ⟨h, rfl⟩
  | cons e evs ih =>
      have hact := cooldown_step_active e st h (he e (by simp))
      have htr := cooldown_step_triggers e st h
      have := ih (step e st) hact (fun e' h' => he e' (by simp [h']))
      rw [run_cons]
      exact ⟨this.1, this.2.trans htr⟩

/-- Events that can occur during a motion session started at `t0` without ending
it or reaching the threshold: blink ticks, cooldown expiry, and `handle_motion`
polls whose elapsed duration is still below the threshold. -/
def benignFor (t0 : Nat) : Event → Bool
  | Event.poll t _ _ => t - t0 < MOTION_THRESHOLD_SECONDS
  | Event.cooldownExpire => true
  | Event.blinkTick => true
  | _ => false

/-- A benign event preserves the session start and emits no capture-trigger. -/
theorem benign_step (t0 : Nat) (e : Event) (st : SysState)
    (hmt : st.motion_start_time = some t0) (he : benignFor t0 e = true) :
    (step e st).motion_start_time = some t0 ∧ (step e st).triggers = st.triggers := by
  cases e with
  | motionOn t => simp [benignFor] at he
  | motionOff => simp [benignFor] at he
  | poll t env f =>
      simp [benignFor] at he
      have hnd : ¬ MOTION_THRESHOLD_SECONDS ≤ t - t0 := by omega
      show (handle_motion_step t env f st).motion_start_time = some t0 ∧
        (handle_motion_step t env f st).triggers = st.triggers
      unfold handle_motion_step
      split
      · simp [hmt, hnd]
      · exact ⟨hmt, rfl⟩
  | cooldownExpire => simp [step, cooldown_expire, hmt]
  | blinkTick => cases hb : st.yellow_blinking <;> simp [step, blink_tick, hb, hmt]

/-- A run of benign events preserves the session start and emits no
capture-trigger. -/
theorem benign_run (t0 : Nat) (evs : List Event) (st : SysState)
    (hmt : st.motion_start_time = some t0)
    (he : ∀ e ∈ evs, benignFor t0 e = true) :
    (run evs st).motion_start_time = some t0 ∧ (run evs st).triggers = st.triggers := by
  induction evs generalizing st with
  | nil => exact ⟨hmt, rfl⟩
  | cons e evs ih =>
      have hstep := benign_step t0 e st hmt (he e (by simp))
      have := ih (step e st) hstep.1 (fun e' h' => he e' (by simp [h']))
      rw [run_cons]
      exact ⟨this.1, this.2.trans hstep.2⟩

/-- Small lemma: a motion-start records the session timestamp and emits no
capture-trigger, whatever the cooldown state. -/
theorem motionOn_step_facts (t : Nat) (st : SysState) :
    (step (Event.motionOn t) st).motion_start_time = some t ∧
    (step (Event.motionOn t) st).triggers = st.triggers := by
  cases h : st.cooldown_active <;>
    simp [step, motion_led_on, start_red, start_yellow_blink, h]

/-! ## Claims -/

/-- C1, counterexample: a pipeline run whose notify step fails (outcome
`NotifyFailed`, not `Success`) still appends a line to the capture log — the
append happens inside the capture step (`save_photo`), before `send_email` runs.
Trace: motion at t=1, poll at t=6 with capture succeeding and notify failing. -/
theorem C1_counterexample :
    pipelineOutcome ⟨true, false⟩ ≠ Outcome.Success ∧
    (run [Event.motionOn 1, Event.poll 6 ⟨true, false⟩ "p.jpg"] initState).triggers = 1 ∧
    (run [Event.motionOn 1, Event.poll 6 ⟨true, false⟩ "p.jpg"] initState).photo_log
      = ["p.jpg"] :=
  ⟨by decide, rfl, rfl⟩

/-- C1, amended: on a capture-trigger, a line is appended to the persisted
capture log exactly when the capture step succeeds, regardless of the notify
outcome — on capture failure nothing is appended, while on a notify failure the
line has already been appended by the capture step. -/
theorem C1_log_append_iff_capture (st : SysState) (t0 t : Nat) (env : PipelineEnv)
    (f : String) (hmt : st.motion_start_time = some t0) (ht0 : t0 ≠ 0)
    (hcd : st.cooldown_active = false)
    (hdur : MOTION_THRESHOLD_SECONDS ≤ t - t0) :
    (env.captureOk = false →
      (step (Event.poll t env f) st).photo_log = st.photo_log) ∧
    (env.captureOk = true →
      (step (Event.poll t env f) st).photo_log = st.photo_log ++ [f]) := by
  have hstep : step (Event.poll t env f) st
      = run_pipeline env f
          { st with yellow_blinking := false, yellow_flash := true,
                    triggers := st.triggers + 1 } :=
    handle_motion_step_trigger t t0 env f st hmt ht0 hcd hdur
  rw [hstep, run_pipeline_log]
  constructor <;> intro hc <;> simp [hc]

/-- C1, witness for the amended theorem at a concrete input: capture fails at
the trigger from the session started at t=1, polled at t=6; no line is
appended. -/
theorem C1_log_append_iff_capture_witness :
    (run [Event.motionOn 1] initState).motion_start_time = some 1 ∧
    ((PipelineEnv.mk false true).captureOk = false →
      (step (Event.poll 6 ⟨false, true⟩ "q.jpg") (run [Event.motionOn 1] initState)).photo_log
        = (run [Event.motionOn 1] initState).photo_log) :=
  ⟨rfl,
    (C1_log_append_iff_capture (run [Event.motionOn 1] initState) 1 6 ⟨false, true⟩
      "q.jpg" rfl (by decide) rfl (by decide)).1⟩

/-- C2: when a truthy session start exists, no cooldown is active and the
elapsed duration reaches the threshold, the poll emits exactly one
capture-trigger, clears the session timestamp, and — as long as no new
motion-start arrives — no further trigger is ever emitted. -/
theorem C2_exactly_one_trigger (st : SysState) (t0 t : Nat) (env : PipelineEnv)
    (f : String) (hmt : st.motion_start_time = some t0) (ht0 : t0 ≠ 0)
    (hcd : st.cooldown_active = false)
    (hdur : MOTION_THRESHOLD_SECONDS ≤ t - t0) :
    (step (Event.poll t env f) st).triggers = st.triggers + 1 ∧
    (step (Event.poll t env f) st).motion_start_time = none ∧
    ∀ evs : List Event, (∀ e ∈ evs, e.beginsSession = false) →
      (run evs (step (Event.poll t env f) st)).triggers = st.triggers + 1 := by
  have hstep : step (Event.poll t env f) st
      = run_pipeline env f
          { st with yellow_blinking := false, yellow_flash := true,
                    triggers := st.triggers + 1 } :=
    handle_motion_step_trigger t t0 env f st hmt ht0 hcd hdur
  have htr : (step (Event.poll t env f) st).triggers = st.triggers + 1 := by
    rw [hstep, run_pipeline_triggers]
  have hms : (step (Event.poll t env f) st).motion_start_time = none := by
    rw [hstep, run_pipeline_motion_start]
  refine ⟨htr, hms, fun evs he => ?_⟩
  have := noSession_run evs (step (Event.poll t env f) st) hms he
  rw [this.2, htr]

/-- C2, witness: session started at t=1, poll at t=6 (duration 5 = threshold),
both pipeline steps succeed. -/
theorem C2_exactly_one_trigger_witness :
    (run [Event.motionOn 1] initState).motion_start_time = some 1 ∧
    ((step (Event.poll 6 ⟨true, true⟩ "a.jpg") (run [Event.motionOn 1] initState)).triggers
        = (run [Event.motionOn 1] initState).triggers + 1 ∧
      (step (Event.poll 6 ⟨true, true⟩ "a.jpg") (run [Event.motionOn 1] initState)).motion_start_time = none ∧
      ∀ evs : List Event, (∀ e ∈ evs, e.beginsSession = false) →
        (run evs (step (Event.poll 6 ⟨true, true⟩ "a.jpg") (run [Event.motionOn 1] initState))).triggers
          = (run [Event.motionOn 1] initState).triggers + 1) :=
  ⟨rfl,
    C2_exactly_one_trigger (run [Event.motionOn 1] initState) 1 6 ⟨true, true⟩
      "a.jpg" rfl (by decide) rfl (by decide)⟩

/-- C3: every capture-trigger, whatever the pipeline environment (capture
failure, notify failure or full success), sets the cooldown flag and starts
exactly one cooldown timer of exactly `COOLDOWN_DURATION_SECONDS`. -/
theorem C3_cooldown_after_every_run (st : SysState) (t0 t : Nat)
    (env : PipelineEnv) (f : String) (hmt : st.motion_start_time = some t0)
    (ht0 : t0 ≠ 0) (hcd : st.cooldown_active = false)
    (hdur : MOTION_THRESHOLD_SECONDS ≤ t - t0) :
    (step (Event.poll t env f) st).cooldown_active = true ∧
    (step (Event.poll t env f) st).cooldown_timers
      = st.cooldown_timers ++ [COOLDOWN_DURATION_SECONDS] := by
  have hstep : step (Event.poll t env f) st
      = run_pipeline env f
          { st with yellow_blinking := false, yellow_flash := true,
                    triggers := st.triggers + 1 } :=
    handle_motion_step_trigger t t0 env f st hmt ht0 hcd hdur
  rw [hstep]
  exact ⟨run_pipeline_cooldown env f _, run_pipeline_timers env f _⟩

/-- C3, witness: a capture-failure run (worst case) still enters cooldown with
one timer of 30 s. -/
theorem C3_cooldown_after_every_run_witness :
    (run [Event.motionOn 1] initState).cooldown_active = false ∧
    ((step (Event.poll 6 ⟨false, false⟩ "a.jpg") (run [Event.motionOn 1] initState)).cooldown_active = true ∧
      (step (Event.poll 6 ⟨false, false⟩ "a.jpg") (run [Event.motionOn 1] initState)).cooldown_timers
        = (run [Event.motionOn 1] initState).cooldown_timers ++ [COOLDOWN_DURATION_SECONDS]) :=
  ⟨rfl,
    C3_cooldown_after_every_run (run [Event.motionOn 1] initState) 1 6
      ⟨false, false⟩ "a.jpg" rfl (by decide) rfl (by decide)⟩

/-- C4: while the cooldown flag is set no single event — motion-start,
motion-stop, poll, expiry or blink tick — emits a capture-trigger, and any run
of events that does not contain the cooldown-expiry event keeps the flag set
and emits no capture-trigger. -/
theorem C4_no_trigger_during_cooldown (st : SysState)
    (h : st.cooldown_active = true) :
    (∀ e : Event, (step e st).triggers = st.triggers) ∧
    (∀ evs : List Event, (∀ e ∈ evs, e ≠ Event.cooldownExpire) →
      (run evs st).triggers = st.triggers ∧ (run evs st).cooldown_active = true) :=
  ⟨fun e => cooldown_step_triggers e st h,
   fun evs he =>
     have hr := cooldown_run evs st h he
     ⟨hr.2, hr.1⟩⟩

/-- C4, witness: inside the cooldown entered after a successful run, motion
events and polls leave the trigger count unchanged. -/
theorem C4_no_trigger_during_cooldown_witness :
    (run [Event.motionOn 1, Event.poll 6 ⟨true, true⟩ "a.jpg"] initState).cooldown_active = true ∧
    ((∀ e : Event,
        (step e (run [Event.motionOn 1, Event.poll 6 ⟨true, true⟩ "a.jpg"] initState)).triggers
          = (run [Event.motionOn 1, Event.poll 6 ⟨true, true⟩ "a.jpg"] initState).triggers) ∧
      (∀ evs : List Event, (∀ e ∈ evs, e ≠ Event.cooldownExpire) →
        (run evs (run [Event.motionOn 1, Event.poll 6 ⟨true, true⟩ "a.jpg"] initState)).triggers
            = (run [Event.motionOn 1, Event.poll 6 ⟨true, true⟩ "a.jpg"] initState).triggers ∧
          (run evs (run [Event.motionOn 1, Event.poll 6 ⟨true, true⟩ "a.jpg"] initState)).cooldown_active = true)) :=
  ⟨rfl,
    C4_no_trigger_during_cooldown
      (run [Event.motionOn 1, Event.poll 6 ⟨true, true⟩ "a.jpg"] initState) rfl⟩

/-- C5, counterexample: after the successful run at t=6 the cooldown is active;
a motion-start at t=27 during that cooldown nevertheless records the session
timestamp 27 (threshold timing is armed from it), and once the cooldown expires
a poll at t=32 — with no new motion-start — emits a trigger counting the motion
time elapsed since t=27, inside the cooldown window. -/
theorem C5_counterexample :
    (run [Event.motionOn 1, Event.poll 6 ⟨true, true⟩ "a.jpg"] initState).cooldown_active = true ∧
    (run [Event.motionOn 1, Event.poll 6 ⟨true, true⟩ "a.jpg",
          Event.motionOn 27] initState).motion_start_time = some 27 ∧
    (run [Event.motionOn 1, Event.poll 6 ⟨true, true⟩ "a.jpg",
          Event.motionOn 27] initState).triggers = 1 ∧
    (run [Event.motionOn 1, Event.poll 6 ⟨true, true⟩ "a.jpg", Event.motionOn 27,
          Event.cooldownExpire, Event.poll 32 ⟨true, true⟩ "b.jpg"] initState).triggers = 2 :=
  ⟨rfl, rfl, rfl, rfl⟩

/-- C5, amended: a motion-start while the cooldown is active sets only the
attention indicator (RED) and does not arm the blink, but it still records the
session start time; the elapsed motion time from that start does count toward
the threshold once the cooldown ends. -/
theorem C5_cooldown_start_records_session (st : SysState) (t : Nat)
    (h : st.cooldown_active = true) :
    step (Event.motionOn t) st
      = { st with red_on := true, motion_start_time := some t } ∧
    ∀ t' env f, t ≠ 0 → MOTION_THRESHOLD_SECONDS ≤ t' - t →
      (step (Event.poll t' env f)
          (cooldown_expire (step (Event.motionOn t) st))).triggers
        = st.triggers + 1 := by
  have heq : step (Event.motionOn t) st
      = { st with red_on := true, motion_start_time := some t } := by
    simp [step, motion_led_on, start_red, h]
  refine ⟨heq, fun t' env f ht hdur => ?_⟩
  rw [heq]
  have hstep := handle_motion_step_trigger t' t env f
    (cooldown_expire { st with red_on := true, motion_start_time := some t })
    rfl ht rfl hdur
  show (handle_motion_step t' env f _).triggers = st.triggers + 1
  rw [hstep, run_pipeline_triggers]
  simp [cooldown_expire]

/-- C5, witness for the amended theorem: a concrete cooldown state, motion-start
at t=27, cooldown expiry, poll at t=32. -/
theorem C5_cooldown_start_records_session_witness :
    ({ initState with cooldown_active := true } : SysState).cooldown_active = true ∧
    (step (Event.motionOn 27) { initState with cooldown_active := true }
        = { { initState with cooldown_active := true } with
              red_on := true, motion_start_time := some 27 } ∧
      ∀ t' env f, (27 : Nat) ≠ 0 → MOTION_THRESHOLD_SECONDS ≤ t' - 27 →
        (step (Event.poll t' env f)
            (cooldown_expire (step (Event.motionOn 27) { initState with cooldown_active := true }))).triggers
          = ({ initState with cooldown_active := true } : SysState).triggers + 1) :=
  ⟨rfl, C5_cooldown_start_records_session { initState with cooldown_active := true } 27 rfl⟩

/-- C6: a motion session that ends (motion-stop) after any run of blink ticks,
cooldown expiries and polls whose elapsed duration stays below the threshold
emits no capture-trigger and returns the machine to idle: session cleared, RED
off, blink flag cleared. -/
theorem C6_short_session_no_trigger (st : SysState) (t0 : Nat) (evs : List Event)
    (he : ∀ e ∈ evs, benignFor t0 e = true) :
    (step Event.motionOff (run evs (step (Event.motionOn t0) st))).triggers
      = st.triggers ∧
    (step Event.motionOff (run evs (step (Event.motionOn t0) st))).motion_start_time
      = none ∧
    (step Event.motionOff (run evs (step (Event.motionOn t0) st))).red_on = false ∧
    (step Event.motionOff (run evs (step (Event.motionOn t0) st))).yellow_blinking
      = false := by
  have h1 := motionOn_step_facts t0 st
  have h2 := benign_run t0 evs (step (Event.motionOn t0) st) h1.1 he
  refine ⟨?_, rfl, rfl, rfl⟩
  show (motion_led_off _).triggers = st.triggers
  simp [motion_led_off, stop_red, stop_yellow_blink, h2.2, h1.2]

/-- C6, witness: session at t=1, a blink tick and a poll at t=4 (duration 3 <
threshold 5), then motion-stop: no trigger, machine idle. -/
theorem C6_short_session_no_trigger_witness :
    (∀ e ∈ [Event.blinkTick, Event.poll 4 ⟨true, true⟩ "x.jpg",
            Event.cooldownExpire], benignFor 1 e = true) ∧
    ((step Event.motionOff
        (run [Event.blinkTick, Event.poll 4 ⟨true, true⟩ "x.jpg", Event.cooldownExpire]
          (step (Event.motionOn 1) initState))).triggers = initState.triggers ∧
      (step Event.motionOff
        (run [Event.blinkTick, Event.poll 4 ⟨true, true⟩ "x.jpg", Event.cooldownExpire]
          (step (Event.motionOn 1) initState))).motion_start_time = none ∧
      (step Event.motionOff
        (run [Event.blinkTick, Event.poll 4 ⟨true, true⟩ "x.jpg", Event.cooldownExpire]
          (step (Event.motionOn 1) initState))).red_on = false ∧
      (step Event.motionOff
        (run [Event.blinkTick, Event.poll 4 ⟨true, true⟩ "x.jpg", Event.cooldownExpire]
          (step (Event.motionOn 1) initState))).yellow_blinking = false) :=
  ⟨by decide,
    C6_short_session_no_trigger initState 1
      [Event.blinkTick, Event.poll 4 ⟨true, true⟩ "x.jpg", Event.cooldownExpire]
      (by decide)⟩

/-- C7: on a capture-trigger the success indicator (green flash) fires exactly
when the pipeline outcome is `Success` (both capture and notify succeed); on any
capture or notify failure the green-flash count is unchanged. -/
theorem C7_green_iff_success (st : SysState) (t0 t : Nat) (env : PipelineEnv)
    (f : String) (hmt : st.motion_start_time = some t0) (ht0 : t0 ≠ 0)
    (hcd : st.cooldown_active = false)
    (hdur : MOTION_THRESHOLD_SECONDS ≤ t - t0) :
    ((step (Event.poll t env f) st).green_flashes = st.green_flashes + 1 ↔
      pipelineOutcome env = Outcome.Success) ∧
    (pipelineOutcome env ≠ Outcome.Success →
      (step (Event.poll t env f) st).green_flashes = st.green_flashes) := by
  have hstep : step (Event.poll t env f) st
      = run_pipeline env f
          { st with yellow_blinking := false, yellow_flash := true,
                    triggers := st.triggers + 1 } :=
    handle_motion_step_trigger t t0 env f st hmt ht0 hcd hdur
  rw [hstep, run_pipeline_green]
  rcases env with ⟨co, no⟩
  cases co <;> cases no <;> simp [pipelineOutcome]

/-- C7, witness: a notify failure yields no green flash; the outcome is not
`Success`. -/
theorem C7_green_iff_success_witness :
    pipelineOutcome ⟨true, false⟩ ≠ Outcome.Success ∧
    (step (Event.poll 6 ⟨true, false⟩ "a.jpg") (run [Event.motionOn 1] initState)).green_flashes
      = (run [Event.motionOn 1] initState).green_flashes :=
  ⟨by decide,
    (C7_green_iff_success (run [Event.motionOn 1] initState) 1 6 ⟨true, false⟩
      "a.jpg" rfl (by decide) rfl (by decide)).2 (by decide)⟩

/-- C8: cancelling the yellow pattern always leaves the channel off — after
`stop_yellow_blink` the blinking thread's next iteration exits its loop and
turns the LED off (one scheduler tick); likewise after a motion-stop; and
`stop_flash_yellow` turns the LED off directly. The channel is never left
mid-cycle in the on state. -/
theorem C8_cancel_leaves_off :
    (∀ st : SysState, (blink_tick (stop_yellow_blink st)).yellow_on = false) ∧
    (∀ st : SysState, (blink_tick (step Event.motionOff st)).yellow_on = false) ∧
    (∀ st : SysState, (stop_flash_yellow st).yellow_on = false) := by
  refine ⟨fun st => ?_, fun st => ?_, fun st => rfl⟩ <;>
    simp [blink_tick, stop_yellow_blink, step, motion_led_off, stop_red,
      stop_flash_yellow]

/-- The listing the `/check-photos` route displays for an existing log file:
the last `MAX_RECENT_PHOTOS` non-blank entries whose referenced file exists,
mapped to static URLs. -/
theorem check_photos_displayed (lines : List String) (ex : String → Bool) :
    (check_photos (some lines) ex).displayed
      = (((strippedLines lines).drop
            ((strippedLines lines).length - MAX_RECENT_PHOTOS)).filter ex).map
          photo_url := by
  simp only [check_photos]
  split
  · next hemp =>
      rw [List.isEmpty_iff] at hemp
      simp [CheckPhotosResult.displayed, hemp]
  · rfl

/-- C9: the reporting surface tolerates a missing log file — photo count `0`
and the "no photos found" page — and every photo it does display references an
existing artifact (entries whose file is missing are skipped, never an
error). -/
theorem C9_reporting_tolerates_missing (lines : List String) (ex : String → Bool)
    (u : String) (hu : u ∈ (check_photos (some lines) ex).displayed) :
    get_photo_count none = 0 ∧
    check_photos none ex = CheckPhotosResult.noPhotosFound ∧
    ∃ f, ex f = true ∧ u = photo_url f := by
  refine ⟨rfl, rfl, ?_⟩
  rw [check_photos_displayed] at hu
  obtain ⟨f, hf, rfl⟩ := List.mem_map.mp hu
  exact ⟨f, (List.mem_filter.mp hf).2, rfl⟩

/-- C9, witness: a one-entry log whose artifact exists. -/
theorem C9_reporting_tolerates_missing_witness :
    (photo_url "a.jpg") ∈ (check_photos (some ["a.jpg"]) (fun _ => true)).displayed ∧
    (get_photo_count none = 0 ∧
      check_photos none (fun _ => true) = CheckPhotosResult.noPhotosFound ∧
      ∃ f, (fun _ => true) f = true ∧ photo_url "a.jpg" = photo_url f) :=
  ⟨by decide,
    C9_reporting_tolerates_missing ["a.jpg"] (fun _ => true) (photo_url "a.jpg")
      (by decide)⟩

/-- Splitting `strippedLines` over an append. -/
theorem strippedLines_append (l1 l2 : List String) :
    strippedLines (l1 ++ l2) = strippedLines l1 ++ strippedLines l2 := by
  simp [strippedLines]

/-- A blank or whitespace-only line contributes nothing to `strippedLines`. -/
theorem strippedLines_blank (w : String) (hw : strip w = "") (l : List String) :
    strippedLines (w :: l) = strippedLines l := by
  simp [strippedLines, hw]

/-- C10: the recent-photos listing has at most `MAX_RECENT_PHOTOS` entries and
is an in-order sublist of the URLs of the last `MAX_RECENT_PHOTOS` non-blank
log entries; inserting a blank or whitespace-only line anywhere in the log
changes neither the photo count nor the listing. -/
theorem C10_recent_listing (lines l1 l2 : List String) (ex : String → Bool)
    (w : String) (hw : strip w = "") :
    (check_photos (some lines) ex).displayed.length ≤ MAX_RECENT_PHOTOS ∧
    ((check_photos (some lines) ex).displayed).Sublist
      (((strippedLines lines).drop
          ((strippedLines lines).length - MAX_RECENT_PHOTOS)).map photo_url) ∧
    get_photo_count (some (l1 ++ w :: l2)) = get_photo_count (some (l1 ++ l2)) ∧
    check_photos (some (l1 ++ w :: l2)) ex = check_photos (some (l1 ++ l2)) ex := by
  have hd := check_photos_displayed lines ex
  have hsl : strippedLines (l1 ++ w :: l2) = strippedLines (l1 ++ l2) := by
    rw [strippedLines_append, strippedLines_append, strippedLines_blank w hw]
  refine ⟨?_, ?_, ?_, ?_⟩
  · rw [hd, List.length_map]
    calc ((((strippedLines lines).drop
            ((strippedLines lines).length - MAX_RECENT_PHOTOS)).filter ex)).length
        ≤ ((strippedLines lines).drop
            ((strippedLines lines).length - MAX_RECENT_PHOTOS)).length :=
          List.length_filter_le _ _
      _ ≤ MAX_RECENT_PHOTOS := by rw [List.length_drop]; omega
  · rw [hd]
    exact (List.filter_sublist _).map photo_url
  · simp [get_photo_count, hsl]
  · simp [check_photos, hsl]

/-- C10, witness: inserting a whitespace-only line between two entries changes
nothing. -/
theorem C10_recent_listing_witness :
    strip " " = "" ∧
    ((check_photos (some ["a.jpg"]) (fun _ => true)).displayed.length
        ≤ MAX_RECENT_PHOTOS ∧
      ((check_photos (some ["a.jpg"]) (fun _ => true)).displayed).Sublist
        (((strippedLines ["a.jpg"]).drop
            ((strippedLines ["a.jpg"]).length - MAX_RECENT_PHOTOS)).map photo_url) ∧
      get_photo_count (some (["a.jpg"] ++ " " :: ["b.jpg"]))
        = get_photo_count (some (["a.jpg"] ++ ["b.jpg"])) ∧
      check_photos (some (["a.jpg"] ++ " " :: ["b.jpg"])) (fun _ => true)
        = check_photos (some (["a.jpg"] ++ ["b.jpg"])) (fun _ => true)) :=
  ⟨by decide,
    C10_recent_listing ["a.jpg"] ["a.jpg"] ["b.jpg"] (fun _ => true) " " (by decide)⟩
